import Mathlib

/-
  Verification development for the nlane software transactional memory engine.

  The definitions below are a shallow embedding of the C++ sources:
    include/nlane/transactional/transaction_support.hpp  (locks, lock table, counters)
    include/nlane/transactional/tr_variable.hpp          (PooledList, entries, TransactionEngine)

  Machine integers are modelled as Nat with explicit reductions modulo 2 ^ 64
  where overflow matters.  The engine is strictly single threaded per instance;
  the embedding gives the sequential semantics of one engine: while an
  operation runs, no other thread mutates the shared lock table, memory or
  counters.  Under that semantics every spin loop of the source either exits in
  its first iteration or repeats an identical iteration forever; the latter is
  represented by the dedicated error value TrError.stuck.
-/

namespace Nlane

abbrev Word := Nat
abbrev Version := Nat

/-- The all ones 64 bit word, the C++ value of a bitwise complement of zero. -/
def wordAllOnes : Nat := 2 ^ 64 - 1

/-- The maximum of std numeric limits for Version, the CM sentinel value. -/
def versionMax : Nat := 2 ^ 64 - 1

/-- Bitwise complement of x inside a 64 bit word. -/
def notW (x : Nat) : Nat := wordAllOnes ^^^ x

/-- Size of the global lock table, kLockTableSize in the source. -/
def kLockTableSize : Nat := 4096

/-- Bitmask used for indexing the lock table, kLockTableSize - 1. -/
def kLockTableMask : Nat := kLockTableSize - 1

/-- GetLockIndex from transaction_support.hpp: the address as an integer
masked with kLockTableMask. -/
def GetLockIndex (address : Nat) : Nat := address &&& kLockTableMask

namespace ReadLock

/-- The read version lock bit, the top bit of a 64 bit word. -/
def kLockMask : Nat := 2 ^ 63

/-- ReadLock Lock: sets the lock bit of the stored version word. -/
def Lock (v : Version) : Version := v ||| kLockMask

/-- ReadLock Unlock with no argument: clears the lock bit, keeps the version. -/
def Unlock (v : Version) : Version := v &&& notW kLockMask

/-- ReadLock Unlock with a version argument: stores the new version word. -/
def UnlockTo (_v : Version) (new_version : Version) : Version := new_version

end ReadLock

namespace WriteLock

/-- The write lock flag, stored in the low bit of the atomic value. -/
def kLockMask : Nat := 1

/-- WriteLock IsLocked: tests the lock flag of the atomic value. -/
def IsLocked (value : Nat) : Bool := value &&& kLockMask != 0

/-- WriteLock IsLockedBy: the atomic value equals owner or-ed with the flag. -/
def IsLockedBy (value self : Nat) : Bool := value == (self ||| kLockMask)

/-- WriteLock GetOwner: the atomic value with the lock flag masked out. -/
def GetOwner (value : Nat) : Nat := value &&& notW kLockMask

end WriteLock

/-- One stripe of the global lock table.  The field r_lock holds the word
stored in the ReadLock, the field w_lock holds the atomic word of the
WriteLock (owner identity or-ed with the lock flag, zero when free). -/
structure LockEntry where
  r_lock : Version
  w_lock : Nat
deriving DecidableEq

/-- Errors raised by the engine.  The transaction constructor models
TransactionError with its retry flag, fatal models a std runtime_error such
as the pooled list overflow, and stuck marks a spin loop that never exits
under the sequential single engine semantics. -/
inductive TrError where
  | transaction (msg : String) (retry : Bool)
  | fatal (msg : String)
  | stuck
deriving DecidableEq

/-- TransactionError shouldRetry; a fatal error or a stuck spin never retries. -/
def TrError.shouldRetry : TrError → Bool
  | TrError.transaction _ retry => retry
  | TrError.fatal _ => false
  | TrError.stuck => false

/-- PromotionState from transactional.hpp. -/
inductive PromotionState where
  | NO_RUNNING
  | COMPATIBLE
  | INCOMPATIBLE
deriving DecidableEq

namespace State

/-- State INITIALIZED_bit. -/
def INITIALIZED_bit : Nat := 1

/-- State RUNNING_bit. -/
def RUNNING_bit : Nat := 2

/-- State READ_ONLY_bit. -/
def READ_ONLY_bit : Nat := 4

/-- Derived state UNINITIALIZED. -/
def UNINITIALIZED : Nat := 0

/-- Derived state INITIALIZED. -/
def INITIALIZED : Nat := INITIALIZED_bit

/-- Derived state READ_WRITE_RUNNING. -/
def READ_WRITE_RUNNING : Nat := INITIALIZED_bit ||| RUNNING_bit

/-- Derived state READ_ONLY_RUNNING. -/
def READ_ONLY_RUNNING : Nat := INITIALIZED_bit ||| RUNNING_bit ||| READ_ONLY_bit

end State

/-- Entry of the per transaction read set, key is the stripe index. -/
structure ReadSetEntry where
  index : Nat
  old_version : Version
deriving DecidableEq

/-- Assignment from the key: the C++ operator= only stores the index and
leaves old_version as whatever the pool slot held before. -/
def ReadSetEntry.assignKey (key : Nat) (e : ReadSetEntry) : ReadSetEntry :=
  { e with index := key }

/-- ReadSetEntry SetVersion. -/
def ReadSetEntry.SetVersion (e : ReadSetEntry) (new_version : Version) : ReadSetEntry :=
  { e with old_version := new_version }

/-- ReadSetEntry GetVersion. -/
def ReadSetEntry.GetVersion (e : ReadSetEntry) : Version := e.old_version

/-- Entry of the per transaction write set, key is the stripe index. -/
structure WriteSetEntry where
  index : Nat
deriving DecidableEq

/-- Assignment from the key for WriteSetEntry. -/
def WriteSetEntry.assignKey (key : Nat) (_e : WriteSetEntry) : WriteSetEntry :=
  { index := key }

/-- Entry of the per transaction write data buffer, key is the address. -/
structure WriteData where
  address : Nat
  data : Word
  mask : Word
deriving DecidableEq

/-- Assignment from the key: the C++ operator= only stores the address and
leaves data and mask as whatever the pool slot held before. -/
def WriteData.assignKey (key : Nat) (e : WriteData) : WriteData :=
  { e with address := key }

/-- WriteData Set. -/
def WriteData.Set (e : WriteData) (new_data new_mask : Word) : WriteData :=
  { e with data := new_data, mask := new_mask }

/-- WriteData Extend: merges a repeated write into the stored entry. -/
def WriteData.Extend (e : WriteData) (new_data new_mask : Word) : WriteData :=
  { e with data := (e.data &&& notW new_mask) ||| (new_data &&& new_mask),
           mask := e.mask ||| new_mask }

/-- PooledList from tr_variable.hpp.  The pool field is the backing page of
default constructed entries, next_index counts the entries in use. -/
structure PooledList (α : Type) where
  pool : Nat → α
  next_index : Nat

/-- A pooled list directly after Init: all slots default constructed, empty. -/
def PooledList.InitList (d : α) : PooledList α := ⟨fun _ => d, 0⟩

/-- PooledList Create: takes the next slot, assigns the key into it.  The
source increments next_index first; GetEntry then throws a fatal runtime
error when the index leaves pool zero, that is when index / cnt is not 0. -/
def PooledList.Create (l : PooledList α) (cnt : Nat) (assign : α → α) :
    PooledList α × Except TrError Nat :=
  let index := l.next_index
  if index / cnt = 0 then
    (⟨fun i => if i = index then assign (l.pool i) else l.pool i, index + 1⟩, Except.ok index)
  else
    ({ l with next_index := index + 1 }, Except.error (TrError.fatal "Out of memory"))

/-- PooledList Get: linear search over the slots in use, first match wins. -/
def PooledList.Get (l : PooledList α) (p : α → Bool) : Option Nat :=
  (List.range l.next_index).find? (fun i => p (l.pool i))

/-- PooledList GetOrCreate. -/
def PooledList.GetOrCreate (l : PooledList α) (cnt : Nat) (assign : α → α) (p : α → Bool) :
    PooledList α × Except TrError Nat :=
  match l.Get p with
  | some i => (l, Except.ok i)
  | none => l.Create cnt assign

/-- PooledList Clear: resets next_index, slot contents stay in the pool. -/
def PooledList.Clear (l : PooledList α) : PooledList α := { l with next_index := 0 }

/-- PooledList Empty. -/
def PooledList.Empty (l : PooledList α) : Bool := l.next_index == 0

/-- PooledList GetSize. -/
def PooledList.GetSize (l : PooledList α) : Nat := l.next_index

/-- Mutation through a pointer returned by Get, GetOrCreate or Create: the
slot at the given index is replaced by f applied to its content. -/
def PooledList.ModifyAt (l : PooledList α) (i : Nat) (f : α → α) : PooledList α :=
  { l with pool := fun j => if j = i then f (l.pool j) else l.pool j }

/-- Point update of a table modelled as a function on indices. -/
def updFun (f : Nat → α) (i : Nat) (v : α) : Nat → α :=
  fun j => if j = i then v else f j

/-- Per thread part of the TransactionEngine: state bit field, start version,
contention manager timestamp and backoff counter, and the three pooled
buffers. -/
structure Engine where
  state : Nat
  version : Version
  cm_ts : Version
  cm_backoff : Nat
  read_set : PooledList ReadSetEntry
  write_set : PooledList WriteSetEntry
  write_data : PooledList WriteData

/-- The whole state an engine operation can touch: target memory (word
aligned address to word content), the global lock table, the two global
counters and the engine itself.  The identity of the engine (the owner
value stored into write locks, the this pointer of the source) is passed
separately as the self argument of each operation. -/
structure Machine where
  mem : Nat → Word
  locks : Nat → LockEntry
  global_version : Version
  greedy_version : Version
  eng : Engine

/-- The list of stripe indices stored in the write set, in insertion order;
iterating it is the source order of every loop over the write set. -/
def WsIndices (ws : PooledList WriteSetEntry) : List Nat :=
  (List.range ws.next_index).map (fun i => (ws.pool i).index)

/-- Sequential loop over a list of stripe indices applying step to the lock
table entry of each index in order; common shape of the lock loops of
Commit, End and Rollback. -/
def FoldLocks (locks : Nat → LockEntry) (idxs : List Nat) (step : LockEntry → LockEntry) :
    Nat → LockEntry :=
  idxs.foldl (fun L j => updFun L j (step (L j))) locks

/-- Loop body of ValidateReadSet for one read set entry. -/
def ValidateEntry (locks : Nat → LockEntry) (self : Nat) (e : ReadSetEntry) : Bool :=
  let lock := locks e.index
  let v := lock.r_lock
  if lock.r_lock == e.old_version then true
  else if (v &&& ReadLock.kLockMask != 0) && WriteLock.IsLockedBy lock.w_lock self then true
  else false

/-- TransactionEngine ValidateReadSet. -/
def ValidateReadSet (m : Machine) (self : Nat) : Bool :=
  (List.range m.eng.read_set.next_index).all
    (fun i => ValidateEntry m.locks self (m.eng.read_set.pool i))

/-- TransactionEngine Extend: samples the global version, revalidates the
read set and on success widens the snapshot. -/
def Extend (m : Machine) (self : Nat) : Bool × Machine :=
  let new_version := m.global_version
  if ValidateReadSet m self then
    (true, { m with eng := { m.eng with version := new_version } })
  else
    (false, m)

/-- TransactionEngine Rollback: releases every write lock recorded in the
write set and clears the three buffers.  The engine state is not changed. -/
def Rollback (m : Machine) : Machine :=
  { m with
    locks := FoldLocks m.locks (WsIndices m.eng.write_set) (fun e => { e with w_lock := 0 }),
    eng := { m.eng with
             read_set := m.eng.read_set.Clear,
             write_set := m.eng.write_set.Clear,
             write_data := m.eng.write_data.Clear } }

/-- TransactionEngine CmShouldAbort.  The cm_ts_of argument gives the cm_ts
value of the engine stored behind an owner identity; MarkAbort of the owner
is an empty hint in the source and has no effect here. -/
def CmShouldAbort (self_ts : Version) (lock_value : Nat) (cm_ts_of : Nat → Version) : Bool :=
  if self_ts = versionMax then true
  else
    let owner := WriteLock.GetOwner lock_value
    if owner ≠ 0 then
      if cm_ts_of owner < self_ts then true
      else false
    else false

/-- TransactionEngine CmOnWrite: once the write set has reached ten stripes a
non greedy transaction claims a greedy timestamp, the pre increment value of
the greedy counter. -/
def CmOnWrite (m : Machine) : Machine :=
  if m.eng.cm_ts = versionMax then
    if m.eng.write_set.GetSize ≥ 10 then
      { m with greedy_version := (m.greedy_version + 1) % 2 ^ 64,
               eng := { m.eng with cm_ts := m.greedy_version } }
    else m
  else m

/-- TransactionEngine IsReadWriteCompatible as a function of the state bits. -/
def IsReadWriteCompatible (state : Nat) : PromotionState :=
  if state &&& State.RUNNING_bit = 0 then PromotionState.NO_RUNNING
  else if state = State.READ_WRITE_RUNNING then PromotionState.COMPATIBLE
  else PromotionState.INCOMPATIBLE

/-- TransactionEngine IsReadOnlyCompatible as a function of the state bits. -/
def IsReadOnlyCompatible (state : Nat) : PromotionState :=
  if state &&& State.RUNNING_bit = 0 then PromotionState.NO_RUNNING
  else if state = State.READ_WRITE_RUNNING ∨ state = State.READ_ONLY_RUNNING then
    PromotionState.COMPATIBLE
  else PromotionState.INCOMPATIBLE

/-- TransactionEngine CommitData: one unconditional masked word store into
target memory. -/
def CommitData (mem : Nat → Word) (d : WriteData) : Nat → Word :=
  updFun mem d.address ((mem d.address &&& notW d.mask) ||| (d.data &&& d.mask))

/-- Loop of Commit applying CommitData to every write data entry in order. -/
def CommitAllData (mem : Nat → Word) (wd : PooledList WriteData) : Nat → Word :=
  (List.range wd.next_index).foldl (fun M i => CommitData M (wd.pool i)) mem

/-- First phase of a non empty read write Commit: set the read version lock
bit of every write set stripe, then fetch-add the global version; the new
version is the post increment value found in global_version afterwards. -/
def CommitLockPhase (m : Machine) : Machine :=
  { m with
    locks := FoldLocks m.locks (WsIndices m.eng.write_set)
               (fun e => { e with r_lock := ReadLock.Lock e.r_lock }),
    global_version := (m.global_version + 1) % 2 ^ 64 }

/-- Shared tail of Commit: clear the three buffers and leave the transaction. -/
def ClearBuffersAndFinish (m : Machine) : Machine :=
  { m with eng := { m.eng with
                    read_set := m.eng.read_set.Clear,
                    write_set := m.eng.write_set.Clear,
                    write_data := m.eng.write_data.Clear,
                    state := State.INITIALIZED } }

/-- Publication phase of a successful non empty Commit: store every write
data entry to memory, then per write set stripe store the new version into
the read lock and release the write lock, then clear buffers and leave. -/
def CommitApply (m : Machine) (new_version : Version) : Machine :=
  ClearBuffersAndFinish
    { m with
      mem := CommitAllData m.mem m.eng.write_data,
      locks := FoldLocks m.locks (WsIndices m.eng.write_set)
                 (fun e => { e with r_lock := ReadLock.UnlockTo e.r_lock new_version, w_lock := 0 }) }

/-- Abort path of a failed commit validation: clear the read version lock
bit of every write set stripe again, leaving the rest untouched. -/
def CommitUnlockPhase (m : Machine) : Machine :=
  { m with locks := FoldLocks m.locks (WsIndices m.eng.write_set)
                      (fun e => { e with r_lock := ReadLock.Unlock e.r_lock }) }

/-- TransactionEngine Commit.  The failed assertion of the source (commit
outside a running transaction) is modelled as a fatal error.  On the read
write path the lock phase runs first; its post increment global version is
the new version of the transaction. -/
def Commit (m : Machine) (self : Nat) : Machine × Option TrError :=
  if m.eng.state &&& State.RUNNING_bit ≠ State.RUNNING_bit then
    (m, some (TrError.fatal "assertion failed: no running transaction"))
  else if m.eng.state = State.READ_ONLY_RUNNING then
    ({ m with eng := { m.eng with state := State.INITIALIZED } }, none)
  else if m.eng.write_set.Empty then
    (ClearBuffersAndFinish m, none)
  else if (CommitLockPhase m).global_version > (m.eng.version + 1) % 2 ^ 64 then
    if ValidateReadSet (CommitLockPhase m) self then
      (CommitApply (CommitLockPhase m) (CommitLockPhase m).global_version, none)
    else
      (Rollback (CommitUnlockPhase (CommitLockPhase m)),
        some (TrError.transaction "Failed to validate read set" true))
  else
    (CommitApply (CommitLockPhase m) (CommitLockPhase m).global_version, none)

/-- TransactionEngine ReadWord under the sequential semantics.  The double
sample loop degenerates: the read version cannot change between the two
samples, so the loop exits at once when the lock bit is clear and spins
forever otherwise.  The source obtains the read set entry with GetOrCreate
and then never stores the sampled version into it. -/
def ReadWord (m : Machine) (self : Nat) (address : Nat) : Machine × Except TrError Word :=
  let index := GetLockIndex address
  let lock := m.locks index
  if WriteLock.IsLockedBy lock.w_lock self then
    match m.eng.write_data.Get (fun e => e.address == address) with
    | some i => (m, Except.ok ((m.eng.write_data.pool i).data))
    | none => (m, Except.error (TrError.fatal "assertion failed: entry != nullptr"))
  else
    let v1 := lock.r_lock
    if v1 &&& ReadLock.kLockMask != 0 then (m, Except.error TrError.stuck)
    else
      let data := m.mem address
      let res := m.eng.read_set.GetOrCreate 255 (ReadSetEntry.assignKey index)
                   (fun e => e.index == index)
      let m1 := { m with eng := { m.eng with read_set := res.1 } }
      match res.2 with
      | Except.error err => (m1, Except.error err)
      | Except.ok _ =>
        if v1 > m1.eng.version then
          match Extend m1 self with
          | (true, m2) => (m2, Except.ok data)
          | (false, m2) =>
              (Rollback m2, Except.error (TrError.transaction "Read inconsistent state" true))
        else (m1, Except.ok data)

/-- Tail of WriteWord after the write lock of the stripe has been acquired
and the write set and write data entries created: partial word writes merge
with current memory, the entry is filled, and CmOnWrite runs. -/
def FinishWrite (m : Machine) (address data mask : Nat) (i : Nat) : Machine :=
  let data2 := if mask ≠ wordAllOnes then (data &&& mask) ||| (m.mem address &&& notW mask)
               else data
  CmOnWrite
    { m with eng := { m.eng with
                      write_data := m.eng.write_data.ModifyAt i
                        (fun e => WriteData.Set e data2 mask) } }

/-- Middle of WriteWord after lock acquisition: the read version check with a
possible Extend, then FinishWrite. -/
def WriteWordAcquired (m : Machine) (self index address data mask : Nat) (i : Nat) :
    Machine × Option TrError :=
  if (m.locks index).r_lock > m.eng.version then
    match Extend m self with
    | (true, m4) => (FinishWrite m4 address data mask i, none)
    | (false, m4) =>
        (Rollback m4, some (TrError.transaction "Inconsistent state after write" true))
  else (FinishWrite m address data mask i, none)

/-- TransactionEngine WriteWord under the sequential semantics.  The
contention loop degenerates: a conflicting owner cannot go away, so the
engine either aborts when CmShouldAbort says so or spins forever. -/
def WriteWord (m : Machine) (self : Nat) (cm_ts_of : Nat → Version)
    (address data mask : Nat) : Machine × Option TrError :=
  let index := GetLockIndex address
  let lock := m.locks index
  if WriteLock.IsLockedBy lock.w_lock self then
    match m.eng.write_data.Get (fun e => e.address == address) with
    | some i =>
        ({ m with eng := { m.eng with
                           write_data := m.eng.write_data.ModifyAt i
                             (fun e => WriteData.Extend e data mask) } }, none)
    | none =>
        let res := m.eng.write_data.Create 255 (WriteData.assignKey address)
        let m1 := { m with eng := { m.eng with write_data := res.1 } }
        match res.2 with
        | Except.error err => (m1, some err)
        | Except.ok i =>
            ({ m1 with eng := { m1.eng with
                                write_data := m1.eng.write_data.ModifyAt i
                                  (fun e => WriteData.Set e data mask) } }, none)
  else if WriteLock.IsLocked lock.w_lock then
    if CmShouldAbort m.eng.cm_ts lock.w_lock cm_ts_of then
      (Rollback m, some (TrError.transaction "Stuff" true))
    else (m, some TrError.stuck)
  else if lock.w_lock = 0 then
    let m1 := { m with locks := updFun m.locks index
                         { m.locks index with w_lock := self ||| WriteLock.kLockMask } }
    let res1 := m1.eng.write_set.Create 255 (WriteSetEntry.assignKey index)
    let m2 := { m1 with eng := { m1.eng with write_set := res1.1 } }
    match res1.2 with
    | Except.error err => (m2, some err)
    | Except.ok _ =>
        let res2 := m2.eng.write_data.Create 255 (WriteData.assignKey address)
        let m3 := { m2 with eng := { m2.eng with write_data := res2.1 } }
        match res2.2 with
        | Except.error err => (m3, some err)
        | Except.ok i => WriteWordAcquired m3 self index address data mask i
  else (m, some TrError.stuck)

/-- Iterated Create on a pooled list, returning the list of results; used to
exercise the capacity bound of the engine buffers. -/
def CreateRepeat (l : PooledList α) (assign : α → α) : Nat → PooledList α × List (Except TrError Nat)
  | 0 => (l, [])
  | n + 1 =>
      let r := CreateRepeat l assign n
      let c := r.1.Create 255 assign
      (c.1, r.2 ++ [c.2])

/-- Read set directly after Init: 255 value initialized slots, none in use. -/
def emptyReadSet : PooledList ReadSetEntry := PooledList.InitList ⟨0, 0⟩

/-- Write set directly after Init. -/
def emptyWriteSet : PooledList WriteSetEntry := PooledList.InitList ⟨0⟩

/-- Write data buffer directly after Init. -/
def emptyWriteData : PooledList WriteData := PooledList.InitList ⟨0, 0, 0⟩

/-- An engine directly after ThreadInit: INITIALIZED, cm_ts at the sentinel,
empty buffers. -/
def baseEngine : Engine :=
  { state := State.INITIALIZED, version := 0, cm_ts := versionMax, cm_backoff := 0,
    read_set := emptyReadSet, write_set := emptyWriteSet, write_data := emptyWriteData }

/-- A machine with zeroed memory, a fresh lock table, counters at zero and a
freshly initialized engine. -/
def baseMachine : Machine :=
  { mem := fun _ => 0, locks := fun _ => ⟨0, 0⟩, global_version := 0, greedy_version := 0,
    eng := baseEngine }

/-- Concrete run for C1: a read write transaction with start version 3 reads
address 0 whose stripe has read version 3 and no write owner. -/
def mC1 : Machine :=
  { baseMachine with
    mem := updFun baseMachine.mem 0 42,
    locks := updFun baseMachine.locks 0 ⟨3, 0⟩,
    eng := { baseEngine with state := State.READ_WRITE_RUNNING, version := 3 } }

/-- Concrete run for C2: engine 64 runs a read write transaction with start
version 0, owns the write lock of stripe 1 with one write set and one write
data entry, and its read set observed stripe 2 at version 0 while that
stripe now carries version 9; the global version is 5. -/
def mC2 : Machine :=
  { baseMachine with
    locks := updFun (updFun baseMachine.locks 1 ⟨0, 64 ||| 1⟩) 2 ⟨9, 0⟩,
    global_version := 5,
    eng := { baseEngine with
             state := State.READ_WRITE_RUNNING,
             read_set := ⟨fun _ => ⟨2, 0⟩, 1⟩,
             write_set := ⟨fun _ => ⟨1⟩, 1⟩,
             write_data := ⟨fun _ => ⟨1, 77, wordAllOnes⟩, 1⟩ } }

/-- Concrete run for C3: a read only transaction that has read one stripe,
so its read set holds one entry. -/
def mC3 : Machine :=
  { baseMachine with
    eng := { baseEngine with
             state := State.READ_ONLY_RUNNING,
             read_set := ⟨fun _ => ⟨5, 7⟩, 1⟩ } }

/-- Base machine for C4: engine 64 inside a read write transaction. -/
def mC4base : Machine :=
  { baseMachine with eng := { baseEngine with state := State.READ_WRITE_RUNNING } }

/-- Machine for C4 reached by the public API: after WriteWord stored 11 at
address 0, engine 64 owns the write lock of stripe 0; address 4096 maps to
the same stripe but has no write data entry. -/
def mC4 : Machine := (WriteWord mC4base 64 (fun _ => 0) 0 11 wordAllOnes).1

/-- Machine for C5: a running read write transaction with empty buffers. -/
def mC5 : Machine :=
  { baseMachine with
    global_version := 4,
    eng := { baseEngine with state := State.READ_WRITE_RUNNING, version := 4 } }

/-- Machine for C6 reached by the public API: after WriteWord stored the word
171 with a full mask at address 0 inside a read write transaction. -/
def mC6 : Machine := (WriteWord mC4base 64 (fun _ => 0) 0 171 wordAllOnes).1

/-- Machine for C7: a running read write transaction, stripe of address 8
free, memory at address 8 holding 65280. -/
def mC7 : Machine :=
  { baseMachine with
    mem := updFun baseMachine.mem 8 65280,
    eng := { baseEngine with state := State.READ_WRITE_RUNNING } }

deriving instance DecidableEq for Except

/-
  Helper lemmas shared by the claim theorems.
-/

theorem FoldLocks_nil (locks : Nat → LockEntry) (step : LockEntry → LockEntry) :
    FoldLocks locks [] step = locks := rfl

theorem FoldLocks_cons (locks : Nat → LockEntry) (j : Nat) (tl : List Nat)
    (step : LockEntry → LockEntry) :
    FoldLocks locks (j :: tl) step = FoldLocks (updFun locks j (step (locks j))) tl step := rfl

theorem FoldLocks_not_mem (idxs : List Nat) (locks : Nat → LockEntry)
    (step : LockEntry → LockEntry) (idx : Nat) (h : idx ∉ idxs) :
    FoldLocks locks idxs step idx = locks idx := by
  induction idxs generalizing locks with
  | nil => rfl
  | cons j tl ih =>
      rw [FoldLocks_cons, ih _ (fun hm => h (List.mem_cons_of_mem _ hm))]
      have hj : idx ≠ j := fun e => h (e ▸ List.mem_cons_self j tl)
      simp [updFun, hj]

theorem FoldLocks_mem {P : LockEntry → Prop} {step : LockEntry → LockEntry}
    (hstep : ∀ e, P (step e)) (idxs : List Nat) (locks : Nat → LockEntry) (idx : Nat)
    (h : idx ∈ idxs) :
    P (FoldLocks locks idxs step idx) := by
  induction idxs generalizing locks with
  | nil => cases h
  | cons j tl ih =>
      rw [FoldLocks_cons]
      by_cases hm : idx ∈ tl
      · exact ih _ hm
      · have hij : idx = j := by
          rcases List.mem_cons.mp h with h1 | h2
          · exact h1
          · exact absurd h2 hm
        subst hij
        rw [FoldLocks_not_mem _ _ _ _ hm]
        simpa [updFun] using hstep _

theorem FoldLocks_preserve {Q : LockEntry → Prop} {step : LockEntry → LockEntry}
    (hstep : ∀ e, Q e → Q (step e)) (idxs : List Nat) (locks : Nat → LockEntry) (idx : Nat)
    (h0 : Q (locks idx)) : Q (FoldLocks locks idxs step idx) := by
  induction idxs generalizing locks with
  | nil => exact h0
  | cons j tl ih =>
      rw [FoldLocks_cons]
      apply ih
      by_cases hj : idx = j
      · subst hj; simpa [updFun] using hstep _ h0
      · simpa [updFun, hj] using h0

theorem lor_one_ne_zero (s : Nat) : s ||| 1 ≠ 0 := by
  intro h
  have h0 := congrArg (fun x => x.testBit 0) h
  simp at h0

theorem CmOnWrite_write_data (m : Machine) :
    (CmOnWrite m).eng.write_data = m.eng.write_data := by
  unfold CmOnWrite
  split
  · split <;> rfl
  · rfl

theorem IsLockedBy_zero (self : Nat) : WriteLock.IsLockedBy 0 self = false := by
  simp only [WriteLock.IsLockedBy, WriteLock.kLockMask]
  exact beq_eq_false_iff_ne.mpr (Ne.symm (lor_one_ne_zero self))

theorem IsLocked_zero : WriteLock.IsLocked 0 = false := by decide

theorem Unlock_clears_bit (v : Version) :
    ReadLock.Unlock v &&& ReadLock.kLockMask = 0 := by
  rw [ReadLock.Unlock, Nat.land_assoc]
  have h : notW ReadLock.kLockMask &&& ReadLock.kLockMask = 0 := by decide
  rw [h]
  simp

/-
  Claim theorems.
-/

/-- C9: the compatibility queries are total functions of the engine state:
with no transaction running both report NO_RUNNING, in READ_WRITE_RUNNING
both report COMPATIBLE, and in READ_ONLY_RUNNING the read only query reports
COMPATIBLE while the read write query reports INCOMPATIBLE. -/
theorem nlane_C9 :
    IsReadWriteCompatible State.UNINITIALIZED = PromotionState.NO_RUNNING ∧
    IsReadOnlyCompatible State.UNINITIALIZED = PromotionState.NO_RUNNING ∧
    IsReadWriteCompatible State.INITIALIZED = PromotionState.NO_RUNNING ∧
    IsReadOnlyCompatible State.INITIALIZED = PromotionState.NO_RUNNING ∧
    IsReadWriteCompatible State.READ_WRITE_RUNNING = PromotionState.COMPATIBLE ∧
    IsReadOnlyCompatible State.READ_WRITE_RUNNING = PromotionState.COMPATIBLE ∧
    IsReadWriteCompatible State.READ_ONLY_RUNNING = PromotionState.INCOMPATIBLE ∧
    IsReadOnlyCompatible State.READ_ONLY_RUNNING = PromotionState.COMPATIBLE := by
  decide

/-- C10: CmShouldAbort tells the caller to abort exactly when its own cm_ts
is the sentinel, or when the lock has a non null owner whose cm_ts is
strictly smaller than the caller timestamp; in every other case the caller
keeps spinning. -/
theorem nlane_C10 (ts lv : Nat) (cm_ts_of : Nat → Version) :
    CmShouldAbort ts lv cm_ts_of = true ↔
      ts = versionMax ∨
        (WriteLock.GetOwner lv ≠ 0 ∧ cm_ts_of (WriteLock.GetOwner lv) < ts) := by
  by_cases h1 : ts = versionMax
  · simp [CmShouldAbort, h1]
  · by_cases h2 : WriteLock.GetOwner lv ≠ 0
    · by_cases h3 : cm_ts_of (WriteLock.GetOwner lv) < ts <;>
        simp [CmShouldAbort, h1, h2, h3]
    · simp [CmShouldAbort, h1, h2]

set_option maxRecDepth 100000 in
/-- C8: each of the three pooled buffer types with engine capacity 255
accepts the creation of entries at indices 0 through 254, and the attempt to
create a 256th entry fails with the fatal out of memory error, which is not
a retry eligible transactional error. -/
theorem nlane_C8 :
    (CreateRepeat emptyReadSet (ReadSetEntry.assignKey 0) 255).2 =
      (List.range 255).map Except.ok ∧
    (CreateRepeat emptyReadSet (ReadSetEntry.assignKey 0) 256).2.getLast? =
      some (Except.error (TrError.fatal "Out of memory")) ∧
    (CreateRepeat emptyWriteSet (WriteSetEntry.assignKey 0) 255).2 =
      (List.range 255).map Except.ok ∧
    (CreateRepeat emptyWriteSet (WriteSetEntry.assignKey 0) 256).2.getLast? =
      some (Except.error (TrError.fatal "Out of memory")) ∧
    (CreateRepeat emptyWriteData (WriteData.assignKey 0) 255).2 =
      (List.range 255).map Except.ok ∧
    (CreateRepeat emptyWriteData (WriteData.assignKey 0) 256).2.getLast? =
      some (Except.error (TrError.fatal "Out of memory")) ∧
    TrError.shouldRetry (TrError.fatal "Out of memory") = false := by
  decide

/-- C1: the source of ReadWord obtains the read set entry with GetOrCreate
but never stores the sampled version v1 into it, so after a validated read
the entry keeps the stale pool value.  In this concrete run the stripe was
sampled at version 3 while the recorded entry still holds version 0. -/
theorem nlane_C1_code_bug :
    (mC1.locks (GetLockIndex 0)).w_lock = 0 ∧
    (mC1.locks (GetLockIndex 0)).r_lock = 3 ∧
    (ReadWord mC1 64 0).2 = Except.ok 42 ∧
    (ReadWord mC1 64 0).1.eng.read_set.next_index = 1 ∧
    ((ReadWord mC1 64 0).1.eng.read_set.pool 0).index = GetLockIndex 0 ∧
    ((ReadWord mC1 64 0).1.eng.read_set.pool 0).old_version = 0 ∧
    ((ReadWord mC1 64 0).1.eng.read_set.pool 0).old_version ≠
      (mC1.locks (GetLockIndex 0)).r_lock := by
  decide

/-- C3: Commit in READ_ONLY_RUNNING returns before the buffer clearing code,
so the read set entry of this concrete run survives the commit although the
call succeeds and the state becomes INITIALIZED. -/
theorem nlane_C3_code_bug :
    mC3.eng.state = State.READ_ONLY_RUNNING ∧
    (Commit mC3 64).2 = none ∧
    (Commit mC3 64).1.eng.state = State.INITIALIZED ∧
    mC3.eng.read_set.next_index = 1 ∧
    (Commit mC3 64).1.eng.read_set.next_index = 1 ∧
    (Commit mC3 64).1.eng.read_set.next_index ≠ 0 := by
  decide

/-- C4 counterexample: engine 64 wrote address 0 and therefore owns stripe 0;
address 4096 maps to the same stripe but was never written, so no write data
entry for it exists and ReadWord fails its assertion instead of returning a
speculative value. -/
theorem nlane_C4_counterexample :
    (WriteWord mC4base 64 (fun _ => 0) 0 11 wordAllOnes).2 = none ∧
    GetLockIndex 4096 = GetLockIndex 0 ∧
    (4096 : Nat) ≠ 0 ∧
    WriteLock.IsLockedBy (mC4.locks (GetLockIndex 4096)).w_lock 64 = true ∧
    mC4.eng.write_data.Get (fun e => e.address == 4096) = none ∧
    (ReadWord mC4 64 4096).2 =
      Except.error (TrError.fatal "assertion failed: entry != nullptr") := by
  decide

/-- C4 amended: when the calling engine owns the write lock of the stripe of
the address and the write data buffer holds an entry for that exact address
(which is the case whenever this transaction has written the address
itself), ReadWord returns the speculative data word of that entry and leaves
the machine unchanged; for other addresses of an owned stripe no entry need
exist and the source instead fails its assertion. -/
theorem nlane_C4_amended (m : Machine) (self address i : Nat)
    (hown : WriteLock.IsLockedBy (m.locks (GetLockIndex address)).w_lock self = true)
    (hget : m.eng.write_data.Get (fun e => e.address == address) = some i) :
    (ReadWord m self address).2 = Except.ok ((m.eng.write_data.pool i).data) ∧
    (ReadWord m self address).1 = m := by
  simp [ReadWord, hown, hget]

/-- Closed instance of the amended C4 at the machine of the counterexample,
reading back the address the transaction has written itself. -/
theorem nlane_C4_witness :
    WriteLock.IsLockedBy (mC4.locks (GetLockIndex 0)).w_lock 64 = true ∧
    mC4.eng.write_data.Get (fun e => e.address == 0) = some 0 ∧
    ((ReadWord mC4 64 0).2 = Except.ok ((mC4.eng.write_data.pool 0).data) ∧
      (ReadWord mC4 64 0).1 = mC4) :=
  ⟨by decide, by decide, nlane_C4_amended mC4 64 0 0 (by decide) (by decide)⟩

/-- C5: a read write Commit whose write set is empty succeeds without an
error, does not increment the global version and does not modify any target
memory word. -/
theorem nlane_C5 (m : Machine) (self : Nat)
    (hs : m.eng.state = State.READ_WRITE_RUNNING)
    (he : m.eng.write_set.Empty = true) :
    (Commit m self).2 = none ∧
    (Commit m self).1.global_version = m.global_version ∧
    (Commit m self).1.mem = m.mem := by
  unfold Commit
  rw [hs, if_neg (by decide), if_neg (by decide), if_pos he]
  exact ⟨rfl, rfl, rfl⟩

/-- Closed instance of C5. -/
theorem nlane_C5_witness :
    mC5.eng.state = State.READ_WRITE_RUNNING ∧
    mC5.eng.write_set.Empty = true ∧
    ((Commit mC5 64).2 = none ∧
      (Commit mC5 64).1.global_version = mC5.global_version ∧
      (Commit mC5 64).1.mem = mC5.mem) :=
  ⟨by decide, by decide, nlane_C5 mC5 64 (by decide) (by decide)⟩

/-- C6: a WriteWord to an address whose stripe write lock this transaction
already owns and whose write data entry already exists merges into that
entry, combining data by keeping the old bits outside the new mask and
taking the new bits under it, or-ing the masks, creating no new entry and
raising no error. -/
theorem nlane_C6 (m : Machine) (self : Nat) (cm_ts_of : Nat → Version)
    (address data mask i : Nat)
    (hown : WriteLock.IsLockedBy (m.locks (GetLockIndex address)).w_lock self = true)
    (hget : m.eng.write_data.Get (fun e => e.address == address) = some i) :
    (WriteWord m self cm_ts_of address data mask).2 = none ∧
    (WriteWord m self cm_ts_of address data mask).1.eng.write_data.next_index =
      m.eng.write_data.next_index ∧
    ((WriteWord m self cm_ts_of address data mask).1.eng.write_data.pool i).address =
      (m.eng.write_data.pool i).address ∧
    ((WriteWord m self cm_ts_of address data mask).1.eng.write_data.pool i).data =
      ((m.eng.write_data.pool i).data &&& notW mask) ||| (data &&& mask) ∧
    ((WriteWord m self cm_ts_of address data mask).1.eng.write_data.pool i).mask =
      (m.eng.write_data.pool i).mask ||| mask ∧
    (∀ j, j ≠ i →
      (WriteWord m self cm_ts_of address data mask).1.eng.write_data.pool j =
        m.eng.write_data.pool j) := by
  simp only [WriteWord, hown, hget, if_true]
  refine ⟨trivial, rfl, ?_, ?_, ?_, ?_⟩
  · simp [PooledList.ModifyAt, WriteData.Extend]
  · simp [PooledList.ModifyAt, WriteData.Extend]
  · simp [PooledList.ModifyAt, WriteData.Extend]
  · intro j hj
    simp [PooledList.ModifyAt, hj]

/-- Closed instance of C6: the second write to address 0 (data 240, mask 240)
after a first write of 171 with a full mask, reached through the public
WriteWord API. -/
theorem nlane_C6_witness :
    WriteLock.IsLockedBy (mC6.locks (GetLockIndex 0)).w_lock 64 = true ∧
    mC6.eng.write_data.Get (fun e => e.address == 0) = some 0 ∧
    ((WriteWord mC6 64 (fun _ => 0) 0 240 240).2 = none ∧
      (WriteWord mC6 64 (fun _ => 0) 0 240 240).1.eng.write_data.next_index =
        mC6.eng.write_data.next_index ∧
      ((WriteWord mC6 64 (fun _ => 0) 0 240 240).1.eng.write_data.pool 0).address =
        (mC6.eng.write_data.pool 0).address ∧
      ((WriteWord mC6 64 (fun _ => 0) 0 240 240).1.eng.write_data.pool 0).data =
        ((mC6.eng.write_data.pool 0).data &&& notW 240) ||| (240 &&& 240) ∧
      ((WriteWord mC6 64 (fun _ => 0) 0 240 240).1.eng.write_data.pool 0).mask =
        (mC6.eng.write_data.pool 0).mask ||| 240 ∧
      (∀ j, j ≠ 0 →
        (WriteWord mC6 64 (fun _ => 0) 0 240 240).1.eng.write_data.pool j =
          mC6.eng.write_data.pool j)) :=
  ⟨by decide, by decide, nlane_C6 mC6 64 (fun _ => 0) 0 240 240 0 (by decide) (by decide)⟩

/-- C7: the first WriteWord to a stripe whose write lock is free (and, so
that the normal path is taken, with room in the buffers and a stripe read
version not above the start version) acquires the lock, creates a write data
entry at the next free slot, and fills it with the given mask and with the
data merged with current memory under the mask when the mask is not all
ones, or with the data unchanged when it is. -/
theorem nlane_C7 (m : Machine) (self : Nat) (cm_ts_of : Nat → Version)
    (address data mask : Nat)
    (hfree : (m.locks (GetLockIndex address)).w_lock = 0)
    (hws : m.eng.write_set.next_index < 255)
    (hwd : m.eng.write_data.next_index < 255)
    (hver : ¬ (m.locks (GetLockIndex address)).r_lock > m.eng.version) :
    (WriteWord m self cm_ts_of address data mask).2 = none ∧
    (WriteWord m self cm_ts_of address data mask).1.eng.write_data.next_index =
      m.eng.write_data.next_index + 1 ∧
    ((WriteWord m self cm_ts_of address data mask).1.eng.write_data.pool
        m.eng.write_data.next_index).address = address ∧
    ((WriteWord m self cm_ts_of address data mask).1.eng.write_data.pool
        m.eng.write_data.next_index).mask = mask ∧
    ((WriteWord m self cm_ts_of address data mask).1.eng.write_data.pool
        m.eng.write_data.next_index).data =
      (if mask = wordAllOnes then data
       else (data &&& mask) ||| (m.mem address &&& notW mask)) := by
  have hdiv1 : m.eng.write_set.next_index / 255 = 0 := Nat.div_eq_of_lt hws
  have hdiv2 : m.eng.write_data.next_index / 255 = 0 := Nat.div_eq_of_lt hwd
  simp [WriteWord, WriteWordAcquired, FinishWrite, PooledList.Create,
        PooledList.ModifyAt, WriteData.Set, WriteData.assignKey, updFun,
        CmOnWrite_write_data, hfree, IsLockedBy_zero, IsLocked_zero,
        hdiv1, hdiv2, hver, ite_not]

/-- Closed instance of C7 with a partial mask: writing data 171 with mask 255
at address 8 whose memory word is 65280. -/
theorem nlane_C7_witness :
    (mC7.locks (GetLockIndex 8)).w_lock = 0 ∧
    mC7.eng.write_set.next_index < 255 ∧
    mC7.eng.write_data.next_index < 255 ∧
    ¬ (mC7.locks (GetLockIndex 8)).r_lock > mC7.eng.version ∧
    ((WriteWord mC7 64 (fun _ => 0) 8 171 255).2 = none ∧
      (WriteWord mC7 64 (fun _ => 0) 8 171 255).1.eng.write_data.next_index =
        mC7.eng.write_data.next_index + 1 ∧
      ((WriteWord mC7 64 (fun _ => 0) 8 171 255).1.eng.write_data.pool
          mC7.eng.write_data.next_index).address = 8 ∧
      ((WriteWord mC7 64 (fun _ => 0) 8 171 255).1.eng.write_data.pool
          mC7.eng.write_data.next_index).mask = 255 ∧
      ((WriteWord mC7 64 (fun _ => 0) 8 171 255).1.eng.write_data.pool
          mC7.eng.write_data.next_index).data =
        (if (255 : Nat) = wordAllOnes then 171
         else ((171 : Nat) &&& 255) ||| (mC7.mem 8 &&& notW 255))) :=
  ⟨by decide, by decide, by decide, by decide,
    nlane_C7 mC7 64 (fun _ => 0) 8 171 255 (by decide) (by decide) (by decide) (by decide)⟩

/-- C2 counterexample: a read write Commit with a non empty write set whose
post increment version exceeds the start version plus one and whose read set
revalidation fails does raise the retry eligible error, but the engine does
not return to INITIALIZED: the throw in the source happens before the state
assignment, so the engine stays in READ_WRITE_RUNNING (which the following
BeginReadWrite of the retry loop treats as a restart). -/
theorem nlane_C2_counterexample :
    mC2.eng.state = State.READ_WRITE_RUNNING ∧
    mC2.eng.write_set.Empty = false ∧
    (mC2.global_version + 1) % 2 ^ 64 > (mC2.eng.version + 1) % 2 ^ 64 ∧
    ValidateReadSet (CommitLockPhase mC2) 64 = false ∧
    (Commit mC2 64).2 = some (TrError.transaction "Failed to validate read set" true) ∧
    (Commit mC2 64).1.eng.state ≠ State.INITIALIZED := by
  decide

/-- C2 amended: for every read write Commit with a non empty write set in
which the post increment new version exceeds the start version plus one and
read set revalidation fails, all read version lock bits set by this commit
are cleared again, all write locks of the write set are released, the three
buffers are cleared and a retry eligible error is raised; the engine however
stays in READ_WRITE_RUNNING instead of returning to INITIALIZED (the
subsequent Begin of the retry loop treats this as a restart). -/
theorem nlane_C2_amended (m : Machine) (self : Nat)
    (hs : m.eng.state = State.READ_WRITE_RUNNING)
    (hne : m.eng.write_set.Empty = false)
    (hgt : (m.global_version + 1) % 2 ^ 64 > (m.eng.version + 1) % 2 ^ 64)
    (hval : ValidateReadSet (CommitLockPhase m) self = false) :
    (Commit m self).2 = some (TrError.transaction "Failed to validate read set" true) ∧
    TrError.shouldRetry (TrError.transaction "Failed to validate read set" true) = true ∧
    (∀ idx, idx ∈ WsIndices m.eng.write_set →
      ((Commit m self).1.locks idx).r_lock &&& ReadLock.kLockMask = 0 ∧
      ((Commit m self).1.locks idx).w_lock = 0) ∧
    (Commit m self).1.eng.read_set.next_index = 0 ∧
    (Commit m self).1.eng.write_set.next_index = 0 ∧
    (Commit m self).1.eng.write_data.next_index = 0 ∧
    (Commit m self).1.eng.state = State.READ_WRITE_RUNNING := by
  have hne' : ¬ (m.eng.write_set.Empty = true) := by simp [hne]
  have hval' : ¬ (ValidateReadSet (CommitLockPhase m) self = true) := by simp [hval]
  have hgt' : (CommitLockPhase m).global_version > (m.eng.version + 1) % 2 ^ 64 := hgt
  have hcommit : Commit m self =
      (Rollback (CommitUnlockPhase (CommitLockPhase m)),
        some (TrError.transaction "Failed to validate read set" true)) := by
    unfold Commit
    rw [hs, if_neg (by decide), if_neg (by decide), if_neg hne', if_pos hgt', if_neg hval']
  rw [hcommit]
  refine ⟨rfl, rfl, ?_, rfl, rfl, rfl, hs⟩
  intro idx hidx
  constructor
  · show (FoldLocks (CommitUnlockPhase (CommitLockPhase m)).locks
        (WsIndices m.eng.write_set) (fun e => { e with w_lock := 0 }) idx).r_lock &&&
        ReadLock.kLockMask = 0
    refine FoldLocks_preserve (Q := fun e => e.r_lock &&& ReadLock.kLockMask = 0) ?_ _ _ _ ?_
    · exact fun e h => h
    · show ((FoldLocks (CommitLockPhase m).locks (WsIndices m.eng.write_set)
          (fun e => { e with r_lock := ReadLock.Unlock e.r_lock })) idx).r_lock &&&
          ReadLock.kLockMask = 0
      exact FoldLocks_mem (P := fun e => e.r_lock &&& ReadLock.kLockMask = 0)
        (fun e => Unlock_clears_bit e.r_lock) _ _ _ hidx
  · show (FoldLocks (CommitUnlockPhase (CommitLockPhase m)).locks
        (WsIndices m.eng.write_set) (fun e => { e with w_lock := 0 }) idx).w_lock = 0
    exact FoldLocks_mem (P := fun e => e.w_lock = 0) (fun e => rfl) _ _ _ hidx

/-- Closed instance of the amended C2 at the machine of the counterexample. -/
theorem nlane_C2_witness :
    mC2.eng.state = State.READ_WRITE_RUNNING ∧
    mC2.eng.write_set.Empty = false ∧
    (mC2.global_version + 1) % 2 ^ 64 > (mC2.eng.version + 1) % 2 ^ 64 ∧
    ValidateReadSet (CommitLockPhase mC2) 64 = false ∧
    ((Commit mC2 64).2 = some (TrError.transaction "Failed to validate read set" true) ∧
      TrError.shouldRetry (TrError.transaction "Failed to validate read set" true) = true ∧
      (∀ idx, idx ∈ WsIndices mC2.eng.write_set →
        ((Commit mC2 64).1.locks idx).r_lock &&& ReadLock.kLockMask = 0 ∧
        ((Commit mC2 64).1.locks idx).w_lock = 0) ∧
      (Commit mC2 64).1.eng.read_set.next_index = 0 ∧
      (Commit mC2 64).1.eng.write_set.next_index = 0 ∧
      (Commit mC2 64).1.eng.write_data.next_index = 0 ∧
      (Commit mC2 64).1.eng.state = State.READ_WRITE_RUNNING) :=
  ⟨by decide, by decide, by decide, by decide,
    nlane_C2_amended mC2 64 (by decide) (by decide) (by decide) (by decide)⟩

end Nlane
